import Mathlib

/-!
Shallow embedding of the wallbox session monitor (`src/wallbox_monitor.py`).

Modelling conventions:
* Python floats are modelled as exact rationals (`ℚ`).  The `%.2f` formatting
  that `save_last_state` applies to `stored_power` is modelled by `round2`
  (rounding to the nearest hundredth); full-precision `str(float)` round-trips
  losslessly and is modelled as the identity on the stored rational.
* The state file (`/tmp/wallbox_state.txt`) content is modelled after the
  `data.split(":")` decomposition performed by `get_last_state`: a tag (the
  part before the first colon) together with the list of remaining parts.
  Each part is a token that is either an integer literal (accepted by both
  `int()` and `float()`), a float literal (accepted by `float()` only), or
  some other string (rejected by both, raising `ValueError`).
* Notification messages are modelled as an `Event` inductive carrying the
  numeric payloads that appear in the message text; timestamps, currency
  formatting and the kWh/Wh rendering of `format_energy` are abstracted away.
* Absent file / raised exceptions are modelled with `Option` / `Except`.
-/

namespace Wallbox

/-- A part of the colon-separated state file, as seen by `float()` / `int()`:
`intLit n` is an integer literal (both conversions succeed), `floatLit q` a
float literal such as `12.50` (only `float()` succeeds), `other` any string
accepted by neither (raising `ValueError`). -/
inductive Tok where
  | intLit (n : ℤ)
  | floatLit (q : ℚ)
  | other
deriving DecidableEq, Repr

/-- Python `float(part)`: succeeds on integer and float literals. -/
def pyFloatTok : Tok → Option ℚ
  | Tok.intLit n => some (n : ℚ)
  | Tok.floatLit q => some q
  | Tok.other => none

/-- Python `int(part)`: succeeds on integer literals only
(`int("1.5")` raises `ValueError`). -/
def pyIntTok : Tok → Option ℤ
  | Tok.intLit n => some n
  | Tok.floatLit _ => none
  | Tok.other => none

/-- Python `int(b)` on a bool, as written into the state file. -/
def pyIntOfBool (b : Bool) : ℤ := if b then 1 else 0

/-- State file content after `data.split(":")`: the leading tag and the
remaining parts.  `data.startswith("charging:")` holds iff the tag is
`"charging"` and at least one further part exists. -/
abbrev FileContent := String × List Tok

/-- Errors that can escape the embedded functions. `unboundLocal` models
Python's `UnboundLocalError` (a kind of `NameError`, not caught by the
`except (FileNotFoundError, ValueError, IndexError)` clause). -/
inductive PyErr where
  | unboundLocal
deriving DecidableEq, Repr

/-- The dictionary returned by `get_last_state`, with the exact keys the code
builds: `state`, `start_time`, `stored_power`, `total_energy_wh_for_summary`,
`notified`, `repeat_check`. -/
structure StateRec where
  state : String
  start_time : Option ℚ
  stored_power : ℚ
  total_energy_wh_for_summary : ℚ
  notified : Bool
  repeat_check : Bool
deriving DecidableEq, Repr

/-- The default record returned when the file content is unusable
(lines 208-215 of `wallbox_monitor.py`). -/
def defaultState : StateRec :=
  ⟨"idle", none, 0, 0, false, false⟩

/-- Parse a present state file, mirroring the body of `get_last_state`:
* a `charging:`/`idle:` line needs `len(parts) >= 6`; the tuple unpacking
  then requires exactly 6 parts (more raise `ValueError`, caught and turned
  into the default record, same as fewer);
* `float(start_time)` is only evaluated for the `charging` tag;
* `bool(int(x))` turns the flag fields into booleans;
* a `disconnected:` line analogously needs exactly 4 parts;
* every conversion failure is caught (with `data` bound, the handler logs
  and the default record is returned). -/
def parseContent (c : FileContent) : StateRec :=
  let tag := c.1
  let rest := c.2
  if (tag = "charging" ∨ tag = "idle") ∧ rest ≠ [] then
    match rest with
    | [tStart, tPow, tNot, tTot, tRep] =>
      let start? : Option (Option ℚ) :=
        if tag = "charging" then (pyFloatTok tStart).map some else some none
      match start?, pyFloatTok tPow, pyIntTok tNot, pyFloatTok tTot, pyIntTok tRep with
      | some st, some sp, some ntf, some tot, some rep =>
        ⟨tag, st, sp, tot, ntf ≠ 0, rep ≠ 0⟩
      | _, _, _, _, _ => defaultState
    | _ => defaultState
  else if tag = "disconnected" ∧ rest ≠ [] then
    match rest with
    | [tTot, tNot, tRep] =>
      match pyFloatTok tTot, pyIntTok tNot, pyIntTok tRep with
      | some tot, some ntf, some rep =>
        ⟨"disconnected", none, 0, tot, ntf ≠ 0, rep ≠ 0⟩
      | _, _, _ => defaultState
    | _ => defaultState
  else defaultState

/-- Embeds `get_last_state()`.  When the file is absent, `open` raises
`FileNotFoundError`; the `except` handler then evaluates
`f"State file content: {data}"` with the local `data` never assigned, so an
`UnboundLocalError` is raised out of the function (lines 204-206). Any
present content parses without escaping errors. -/
def get_last_state (file : Option FileContent) : Except PyErr StateRec :=
  match file with
  | none => Except.error PyErr.unboundLocal
  | some c => Except.ok (parseContent c)

/-- Python `f"{q:.2f}"`: the value denoted by the two-decimal rendering,
modelled as rounding to the nearest hundredth (the tie-break rule of the
decimal formatter is immaterial to every statement below). -/
def round2 (q : ℚ) : ℚ := (⌊q * 100 + 1 / 2⌋ : ℚ) / 100

/-- Embeds `save_last_state(state, stored_power, total_energy_wh_for_summary,
notified, start_time, repeat_check)` (defaults `0.0 / 0.0 / False / None /
False` are spelled out at every call site).  Produces the written file
content:
* `charging`/`idle`: `state:start:power:int(notified):total:int(repeat)` with
  `start` being `str(start_time)` for a charging state with a start time and
  the literal `"0"` otherwise, `power` rendered via `%.2f` (hence `round2`),
  and `total` via `total or 0.0` (value-preserving on rationals);
* `disconnected`: `disconnected:total:int(notified):int(repeat)`;
* any other state writes the 5-part line `idle:0.0:0.0:...`, which
  `get_last_state` cannot parse. -/
def save_last_state (state : String) (stored_power : ℚ)
    (total_energy_wh_for_summary : ℚ) (notified : Bool)
    (start_time : Option ℚ) (repeat_check : Bool) : FileContent :=
  if state = "charging" ∨ state = "idle" then
    let startTok : Tok :=
      match start_time with
      | some t => if state = "charging" then Tok.floatLit t else Tok.intLit 0
      | none => Tok.intLit 0
    (state,
      [startTok, Tok.floatLit (round2 stored_power),
       Tok.intLit (pyIntOfBool notified),
       Tok.floatLit total_energy_wh_for_summary,
       Tok.intLit (pyIntOfBool repeat_check)])
  else if state = "disconnected" then
    ("disconnected",
      [Tok.floatLit total_energy_wh_for_summary,
       Tok.intLit (pyIntOfBool notified),
       Tok.intLit (pyIntOfBool repeat_check)])
  else
    ("idle",
      [Tok.floatLit 0, Tok.floatLit 0,
       Tok.intLit (pyIntOfBool notified),
       Tok.intLit (pyIntOfBool repeat_check)])

/-- Writing a whole record through `save_last_state`, passing each field as
the corresponding keyword argument. -/
def writeState (r : StateRec) : FileContent :=
  save_last_state r.state r.stored_power r.total_energy_wh_for_summary
    r.notified r.start_time r.repeat_check

lemma parse_save_charging (sp tot : ℚ) (ntf : Bool) (st : Option ℚ) (rep : Bool) :
    parseContent (save_last_state "charging" sp tot ntf st rep) =
      ⟨"charging", some (st.getD 0), round2 sp, tot, ntf, rep⟩ := by
  cases st <;> cases ntf <;> cases rep <;>
    simp [parseContent, save_last_state, pyFloatTok, pyIntTok, pyIntOfBool]

lemma parse_save_idle (sp tot : ℚ) (ntf : Bool) (st : Option ℚ) (rep : Bool) :
    parseContent (save_last_state "idle" sp tot ntf st rep) =
      ⟨"idle", none, round2 sp, tot, ntf, rep⟩ := by
  cases st <;> cases ntf <;> cases rep <;>
    simp [parseContent, save_last_state, pyFloatTok, pyIntTok, pyIntOfBool]

lemma parse_save_disconnected (sp tot : ℚ) (ntf : Bool) (st : Option ℚ) (rep : Bool) :
    parseContent (save_last_state "disconnected" sp tot ntf st rep) =
      ⟨"disconnected", none, 0, tot, ntf, rep⟩ := by
  cases st <;> cases ntf <;> cases rep <;>
    simp [parseContent, save_last_state, pyFloatTok, pyIntTok, pyIntOfBool]

/-- Values stored in the dictionary built by `get_last_state`. -/
inductive DVal where
  | dStr (s : String)
  | dFloatOpt (q : Option ℚ)
  | dFloat (q : ℚ)
  | dBool (b : Bool)
deriving DecidableEq, Repr

/-- The dictionary literal returned by `get_last_state` (lines 182-189 /
195-202 / 208-215): exactly these six keys, in this order. -/
def stateDict (r : StateRec) : List (String × DVal) :=
  [("state", DVal.dStr r.state),
   ("start_time", DVal.dFloatOpt r.start_time),
   ("stored_power", DVal.dFloat r.stored_power),
   ("total_energy_wh_for_summary", DVal.dFloat r.total_energy_wh_for_summary),
   ("notified", DVal.dBool r.notified),
   ("repeat_check", DVal.dBool r.repeat_check)]

/-- Python `dict.get(key)`: the value when the key exists, else `None`. -/
def pyDictGet (d : List (String × DVal)) (k : String) : Option DVal :=
  (d.find? (fun p => p.1 = k)).map (fun p => p.2)

/-- Reading a `DVal` back as an optional float, for the assignment
`total_energy_wh = get_last_state().get("total_energy_wh")` (line 326). -/
def dvalToFloat : DVal → Option ℚ
  | DVal.dFloat q => some q
  | DVal.dFloatOpt q => q
  | _ => none

/-- Line 325-326: when the fetched energy is `None`, the code substitutes
`get_last_state().get("total_energy_wh")` — a key that does not exist in the
dictionary, so the lookup yields `None`. -/
def energyWithFallback (sd : StateRec) (fetched : Option ℚ) : Option ℚ :=
  match fetched with
  | some t => some t
  | none => (pyDictGet (stateDict sd) "total_energy_wh").bind dvalToFloat

/-- The notifications `main` can send, abstracted from their message text
(timestamps, currency and kWh/Wh formatting are dropped; numeric payloads
that appear in the text are kept). -/
inductive Event where
  | interrupted                                   -- "charging interrupted - cable unplugged."
  | cableDisconnected                             -- "cable disconnected."
  | cableConnected                                -- "cable connected."
  | chargingStarted                               -- "charging started."
  | chargingRate (kw : ℚ)                         -- "charging rate {kw} kW"
  | chargingStopped                               -- "charging stopped."
  | summary (wh : ℚ)                              -- "total: {format_energy wh} [= price]"
  | sessionSummary (wh total elapsed : ℚ)         -- "{wh} [of {total}] in {elapsed}"
  | alert                                         -- "ALERT (main/fetch): {e}"
deriving DecidableEq, Repr

/-- One observable step of a cycle: a notification dispatch or a state-file
write (with the written content). -/
inductive Action where
  | notify (e : Event)
  | save (c : FileContent)
deriving DecidableEq, Repr

/-- Embeds `send_energy_summary` (lines 232-249): nothing to summarize when
the stored value is not positive; otherwise notify and then reset the stored
summary to 0 via `save_last_state("disconnected", total_energy_wh_for_summary=0)`. -/
def sendEnergySummary (total : ℚ) : List Action :=
  if total ≤ 0 then []
  else
    [Action.notify (Event.summary total),
     Action.save (save_last_state "disconnected" 0 0 false none false)]

/-- Python `a or b` on floats: `b` when `a == 0.0`, else `a`. -/
def pyOrF (a b : ℚ) : ℚ := if a = 0 then b else a

/-- The session energy computed at a normal charging stop (lines 391-392):
`previous_stored_power = stored_power or total_energy_wh or 0` followed by
`session_energy_wh = max(total_energy_wh - previous_stored_power, 0)`. -/
def pySessionEnergy (stored_power total_energy_wh : ℚ) : ℚ :=
  max (total_energy_wh - pyOrF stored_power (pyOrF total_energy_wh 0)) 0

/-- Line 361-363: cable reconnection. -/
def reconnectActs (sd : StateRec) (total_energy_wh : Option ℚ) : List Action :=
  if sd.state = "disconnected" ∧ total_energy_wh ≠ none then
    [Action.notify Event.cableConnected,
     Action.save (save_last_state "idle" sd.stored_power 0 false none false)]
  else []

/-- Line 366: new state classification (`None` fails the isinstance test). -/
def newStateOf (charging_rate : Option ℚ) : String :=
  match charging_rate with
  | none => "idle"
  | some r => if r < 1 then "idle" else "charging"

/-- Line 369-370: store latest total energy for summary. -/
def refreshActs (sd : StateRec) (new_state : String) (total_energy_wh : Option ℚ) :
    List Action :=
  match total_energy_wh with
  | some t =>
    [Action.save (save_last_state new_state sd.stored_power t sd.notified
      sd.start_time false)]
  | none => []

/-- Line 373-375: charging start.  With an absent energy reading (reachable
from a disconnected state with rate ≥ 1.0), `f"{None:.2f}"` raises
`TypeError` inside `save_last_state` after `open(..., "w")` already
truncated the file; the empty file is `("", [])` and the top-level handler
of `main` sends an alert (line 406). -/
def startActs (sd : StateRec) (total_energy_wh : Option ℚ) (now : ℚ) : List Action :=
  match total_energy_wh with
  | none =>
    [Action.notify Event.chargingStarted, Action.save ("", []),
     Action.notify Event.alert]
  | some t =>
    [Action.notify Event.chargingStarted,
     Action.save (save_last_state "charging" t
       sd.total_energy_wh_for_summary false (some now) false)]

/-- Line 378-380: rate notification once per session. -/
def rateActs (sd : StateRec) (p : ℚ) : List Action :=
  if 0 < p ∧ ¬ sd.notified then
    [Action.notify (Event.chargingRate p),
     Action.save (save_last_state "charging" sd.stored_power
       sd.total_energy_wh_for_summary true sd.start_time false)]
  else []

/-- Line 383-400: charging stop and session summary.  The summary is only
emitted when the energy reading is present and `start_time` is truthy
(present and nonzero). -/
def stopActs (sd : StateRec) (new_state : String) (total_energy_wh : Option ℚ)
    (now : ℚ) : List Action :=
  if new_state = "idle" then
    [Action.notify Event.chargingStopped,
     Action.save (save_last_state "idle" sd.stored_power
       (total_energy_wh.getD 0) false sd.start_time false)] ++
    (match total_energy_wh, sd.start_time with
     | some t, some s =>
       if s ≠ 0 then
         [Action.notify (Event.sessionSummary
           (pySessionEnergy sd.stored_power t) t (max (now - s) 60))]
       else []
     | _, _ => [])
  else []

/-- Lines 361-400: the flow after the two early-returning branches of
`main`.  After a charging start, `last_state != "charging"` holds, so the
rate and stop branches cannot fire in the same cycle; with
`last_state == "charging"` and an absent rate, line 378 evaluates
`None > 0`, raising `TypeError`, and the top-level handler sends an alert
instead of reaching the stop branch. -/
def restFlow (sd : StateRec) (charging_rate total_energy_wh : Option ℚ)
    (now : ℚ) : List Action :=
  reconnectActs sd total_energy_wh ++
  refreshActs sd (newStateOf charging_rate) total_energy_wh ++
  (if sd.state ≠ "charging" ∧ newStateOf charging_rate = "charging" then
    startActs sd total_energy_wh now
  else if sd.state = "charging" then
    match charging_rate with
    | none => [Action.notify Event.alert]
    | some p =>
      rateActs sd p ++ stopActs sd (newStateOf charging_rate) total_energy_wh now
  else [])

/-- Embeds the decision logic of `main` (lines 325-400) on an already loaded
state record.  Inputs are the fetch results (`charging_rate`,
`fetched_energy`, both optional) and the wall-clock time `now`; the output
is the ordered list of notifications and state writes the cycle performs.
`charging_rate == 0` (line 335) is `False` for Python `None`, hence the
comparison with `some 0`.  The first two branches return in all their
sub-branches, so they are mutually exclusive with `restFlow`, as in the
source. -/
def cycleCore (sd : StateRec) (charging_rate : Option ℚ)
    (fetched_energy : Option ℚ) (now : ℚ) : List Action :=
  let total_energy_wh : Option ℚ := energyWithFallback sd fetched_energy
  -- line 335: disconnect detected DURING charging
  if sd.state = "charging" ∧ (total_energy_wh = none ∨ charging_rate = some 0) then
    if ¬ sd.repeat_check then
      [Action.save (save_last_state "charging" sd.stored_power
        sd.total_energy_wh_for_summary sd.notified sd.start_time true)]
    else
      Action.notify Event.interrupted ::
        (sendEnergySummary sd.total_energy_wh_for_summary ++
         [Action.save (save_last_state "disconnected" 0
            sd.total_energy_wh_for_summary false none false)])
  -- line 348: normal disconnect detected (idle state)
  else if total_energy_wh = none ∧ sd.state = "idle" then
    if ¬ sd.repeat_check then
      [Action.save (save_last_state "idle" sd.stored_power
        sd.total_energy_wh_for_summary sd.notified none true)]
    else
      Action.notify Event.cableDisconnected ::
        (sendEnergySummary sd.total_energy_wh_for_summary ++
         [Action.save (save_last_state "disconnected" 0
            sd.total_energy_wh_for_summary false none false)])
  else
    restFlow sd charging_rate total_energy_wh now

/-- One full invocation on a given state file: loading the state, then the
decision logic.  A raising `get_last_state` reaches the top-level handler of
`main`, which sends an alert notification. -/
def mainCycle (file : Option FileContent) (charging_rate : Option ℚ)
    (fetched_energy : Option ℚ) (now : ℚ) : List Action :=
  match get_last_state file with
  | Except.error _ => [Action.notify Event.alert]
  | Except.ok sd => cycleCore sd charging_rate fetched_energy now

/-- The content left in the state file by a list of actions (the last write
wins), if any write happened. -/
def lastSaveContent (acts : List Action) : Option FileContent :=
  acts.foldl (fun acc a => match a with | Action.save c => some c | _ => acc) none

/-- One fetch result driving one cycle. -/
structure Sample where
  rate : Option ℚ
  total : Option ℚ
  now : ℚ
deriving DecidableEq, Repr

/-- Run one cycle from a loaded record and reload the record the next
invocation will see (the file is unchanged when the cycle wrote nothing). -/
def stepRec (r : StateRec) (s : Sample) : StateRec × List Action :=
  let acts := cycleCore r s.rate s.total s.now
  (match lastSaveContent acts with
   | some c => parseContent c
   | none => r, acts)

/-- Run a sequence of cycles, concatenating their action traces. -/
def runRec (r : StateRec) : List Sample → List Action
  | [] => []
  | s :: L => (stepRec r s).2 ++ runRec (stepRec r s).1 L

/-- The final record after a sequence of cycles. -/
def runEnd (r : StateRec) : List Sample → StateRec
  | [] => r
  | s :: L => runEnd (stepRec r s).1 L

def isRateNotify : Action → Bool
  | Action.notify (Event.chargingRate _) => true
  | _ => false

def isStartNotify : Action → Bool
  | Action.notify Event.chargingStarted => true
  | _ => false

/-- A disconnect/interruption notification. -/
def isDiscNotify : Action → Bool
  | Action.notify Event.interrupted => true
  | Action.notify Event.cableDisconnected => true
  | _ => false

def isSaveAct : Action → Bool
  | Action.save _ => true
  | _ => false

/-- A notification for one of the cycle's transition events (everything but
the top-level-exception alert). -/
def isEventNotify : Action → Bool
  | Action.notify Event.alert => false
  | Action.notify _ => true
  | _ => false

/-- Number of RateEvent notifications in a trace. -/
def countRate (acts : List Action) : ℕ := acts.countP isRateNotify

/-- Number of StartedEvent notifications in a trace. -/
def countStarted (acts : List Action) : ℕ := acts.countP isStartNotify

/-- The notification payloads of a trace, in order. -/
def notifyEvents (acts : List Action) : List Event :=
  acts.filterMap (fun a => match a with
    | Action.notify e => some e
    | Action.save _ => none)

/-- Everything after the first action satisfying `p`. -/
def dropThroughFirst (p : Action → Bool) : List Action → List Action
  | [] => []
  | a :: t => if p a then t else dropThroughFirst p t

/-- One iteration of the retry loop in `fetch_charging_status` (lines
260-297), from the driver's point of view:
* `rate_el = none`: looking up the `chargingRate` element raised
  (`TimeoutException` etc.) — the whole attempt is skipped, both accumulated
  values unchanged;
* `rate_el = some v`: the element was read; `v` is the parsed kW value when
  the regex matched on a non-empty text, `none` otherwise (value unchanged);
* `consumed_el = none`: the `consumed` lookup raised `TimeoutException` —
  the code explicitly resets `total_energy_wh = None`;
* `consumed_el = some v`: the element was read; `v` is the parsed Wh value
  (kWh already converted) when the regex matched, `none` otherwise
  (value unchanged). -/
structure FetchAttempt where
  rate_el : Option (Option ℚ)
  consumed_el : Option (Option ℚ)
deriving DecidableEq, Repr

/-- The body of one retry-loop iteration. -/
def fetchStep (acc : Option ℚ × Option ℚ) (a : FetchAttempt) : Option ℚ × Option ℚ :=
  match a.rate_el with
  | none => acc
  | some rv =>
    let rate : Option ℚ :=
      match rv with
      | some q => some q
      | none => acc.1
    let tot : Option ℚ :=
      match a.consumed_el with
      | none => none
      | some (some q) => some q
      | some none => acc.2
    (rate, tot)

/-- The retry loop: run the attempts in order, breaking early once both
values are present (the source performs at most 10 attempts; the list models
the attempts actually executed). -/
def fetchLoop (acc : Option ℚ × Option ℚ) : List FetchAttempt → Option ℚ × Option ℚ
  | [] => acc
  | a :: rest =>
    let acc2 := fetchStep acc a
    if acc2.1 ≠ none ∧ acc2.2 ≠ none then acc2 else fetchLoop acc2 rest

/-- Embeds `fetch_charging_status` (lines 251-309).  `fatal = true` models
the top-level `except` path (line 305): `(None, None)` is returned.
Otherwise line 303 substitutes `0.0` for a missing charging rate:
`charging_rate if charging_rate is not None else 0.0`. -/
def fetch_charging_status (fatal : Bool) (attempts : List FetchAttempt) :
    Option ℚ × Option ℚ :=
  if fatal then (none, none)
  else
    (some ((fetchLoop (none, none) attempts).1.getD 0),
     (fetchLoop (none, none) attempts).2)

lemma energyWithFallback_eq (sd : StateRec) (x : Option ℚ) :
    energyWithFallback sd x = x := by
  cases x <;> simp [energyWithFallback, pyDictGet, stateDict, List.find?]

/-- A record is well formed when its phase is one of the three the store can
represent and the session start time is present exactly in the Charging
phase (spec section 3: set when phase transitions to Charging, cleared
otherwise). -/
def WellFormedRec (r : StateRec) : Prop :=
  (r.state = "charging" ∨ r.state = "idle" ∨ r.state = "disconnected") ∧
  (r.state = "charging" ↔ r.start_time ≠ none)

instance (r : StateRec) : Decidable (WellFormedRec r) := by
  unfold WellFormedRec; infer_instance

/-- Claim C1 (code_bug evidence): a cycle that confirms an interruption
(phase Charging, `pending_confirmation` true, energy reading absent again)
leaves the persisted carryover at its old value 500, not 0: line 344
overwrites the reset that `send_energy_summary` had just written. -/
theorem wallbox_c1_carryover_not_cleared :
    (stepRec ⟨"charging", some 100, 5, 500, false, true⟩
      ⟨some 3, none, 0⟩).1.total_energy_wh_for_summary = 500 ∧
    ((stepRec ⟨"charging", some 100, 5, 500, false, true⟩
      ⟨some 3, none, 0⟩).2.countP (fun a => a = Action.notify (Event.summary 500)) = 1) ∧
    (500 : ℚ) ≠ 0 := by
  refine ⟨by decide, by decide, by norm_num⟩

/-- Claim C2 (code_bug evidence): loading the persisted state with the state
file absent does not return the default Idle record — the `except` handler
itself raises (its log line references the never-assigned local `data`), and
the error propagates out of `get_last_state`. -/
theorem wallbox_c2_missing_file_raises :
    get_last_state none = Except.error PyErr.unboundLocal ∧
    get_last_state none ≠ Except.ok defaultState := by
  exact ⟨rfl, by simp [get_last_state]⟩

/-- Claim C9: whenever the telemetry fetch completes without a top-level
exception, the returned charging rate is a number (never `None`); when the
retry loop never parsed a power value, `0.0` is substituted, so the decision
logic sees it exactly as a genuine 0-kW reading. -/
theorem wallbox_c9_rate_never_absent (attempts : List FetchAttempt) :
    ((fetch_charging_status false attempts).1.isSome = true) ∧
    ((fetchLoop (none, none) attempts).1 = none →
      (fetch_charging_status false attempts).1 = some 0) ∧
    (∀ (sd : StateRec) (tot : Option ℚ) (now : ℚ),
      (fetchLoop (none, none) attempts).1 = none →
      cycleCore sd (fetch_charging_status false attempts).1 tot now =
        cycleCore sd (some 0) tot now) := by
  refine ⟨by simp [fetch_charging_status], ?_, ?_⟩
  · intro h
    simp [fetch_charging_status, h]
  · intro sd tot now h
    simp [fetch_charging_status, h]

/-- Witness for C9 at a concrete attempt list on which the power field was
never readable: the result substitutes a 0.0 rate. -/
theorem wallbox_c9_rate_never_absent_witness :
    (fetch_charging_status false [⟨some none, some (some 500)⟩]).1 = some 0 :=
  (wallbox_c9_rate_never_absent [⟨some none, some (some 500)⟩]).2.1 (by decide)

/-- Claim C10: the dictionary built by `get_last_state` has no key
`total_energy_wh`, so the substitution on line 326 always yields `None` and
the cycle proceeds with the energy reading still absent. -/
theorem wallbox_c10_fallback_none (r : StateRec) :
    pyDictGet (stateDict r) "total_energy_wh" = none ∧
    energyWithFallback r none = none := by
  constructor
  · simp [pyDictGet, stateDict, List.find?]
  · simp [energyWithFallback, pyDictGet, stateDict, List.find?]

/-- Claim C7 (counterexample): from phase Disconnected, a sample with the
energy reading present but power 8 kW does not emit exactly one event — the
cycle emits ConnectedEvent and StartedEvent, and the final persisted phase
is Charging, not Idle. -/
theorem wallbox_c7_reconnect_cex :
    notifyEvents (cycleCore ⟨"disconnected", none, 0, 0, false, false⟩
        (some 8) (some 500) 1000) =
      [Event.cableConnected, Event.chargingStarted] ∧
    (stepRec ⟨"disconnected", none, 0, 0, false, false⟩
        ⟨some 8, some 500, 1000⟩).1.state = "charging" := by
  decide

/-- Claim C7 as amended: from phase Disconnected, a sample with the energy
reading present and power absent or below the 1.0 kW charging threshold
emits exactly the ConnectedEvent and leaves phase Idle with
`pending_confirmation` cleared; a sample at or above the threshold
additionally starts a session (see the counterexample). -/
theorem wallbox_c7_reconnect_amended (r : StateRec) (rate : Option ℚ)
    (e now : ℚ) (hs : r.state = "disconnected")
    (hp : rate = none ∨ ∃ p, rate = some p ∧ p < 1) :
    notifyEvents (cycleCore r rate (some e) now) = [Event.cableConnected] ∧
    (stepRec r ⟨rate, some e, now⟩).1.state = "idle" ∧
    (stepRec r ⟨rate, some e, now⟩).1.repeat_check = false := by
  obtain ⟨st, stt, sp, ts, ntf, rep⟩ := r
  simp only at hs
  subst hs
  rcases hp with hp | ⟨p, hp, hlt⟩ <;> subst hp
  · simp [cycleCore, stepRec, energyWithFallback_eq, notifyEvents,
      lastSaveContent, parse_save_idle, restFlow, reconnectActs, newStateOf,
      refreshActs, startActs, rateActs, stopActs]
  · simp [cycleCore, stepRec, energyWithFallback_eq, notifyEvents,
      lastSaveContent, parse_save_idle, restFlow, reconnectActs, newStateOf,
      refreshActs, startActs, rateActs, stopActs, hlt]

/-- Witness for the amended C7 at a concrete disconnected record and a
0.5 kW sample. -/
theorem wallbox_c7_reconnect_amended_witness :
    notifyEvents (cycleCore ⟨"disconnected", none, 3, 7, true, false⟩
        (some (1/2)) (some 500) 1000) = [Event.cableConnected] ∧
    (stepRec ⟨"disconnected", none, 3, 7, true, false⟩
        ⟨some (1/2), some 500, 1000⟩).1.state = "idle" ∧
    (stepRec ⟨"disconnected", none, 3, 7, true, false⟩
        ⟨some (1/2), some 500, 1000⟩).1.repeat_check = false :=
  wallbox_c7_reconnect_amended ⟨"disconnected", none, 3, 7, true, false⟩
    (some (1/2)) 500 1000 rfl (Or.inr ⟨1/2, rfl, by norm_num⟩)

/-- Claim C5 (counterexample): the record (Idle, stored power 0.001) does not
round-trip: `save_last_state` renders `stored_power` with `%.2f`, so it is
read back as 0. -/
theorem wallbox_c5_roundtrip_cex :
    parseContent (writeState ⟨"idle", none, 1/1000, 7, true, false⟩) ≠
      ⟨"idle", none, 1/1000, 7, true, false⟩ ∧
    (parseContent (writeState ⟨"idle", none, 1/1000, 7, true, false⟩)).stored_power
      = 0 := by
  simp only [writeState, parse_save_idle]
  constructor
  · simp only [ne_eq, StateRec.mk.injEq]
    norm_num [round2]
  · norm_num [round2]

/-- Claim C5 as amended: writing a well-formed record and reading it back
recovers every field exactly except `stored_power`, which comes back rounded
to two decimals (and zeroed for a Disconnected record, whose line does not
store a power at all). -/
theorem wallbox_c5_roundtrip_amended (r : StateRec) (h : WellFormedRec r) :
    parseContent (writeState r) =
      ⟨r.state, r.start_time,
       (if r.state = "disconnected" then 0 else round2 r.stored_power),
       r.total_energy_wh_for_summary, r.notified, r.repeat_check⟩ := by
  obtain ⟨st, stt, sp, ts, ntf, rep⟩ := r
  obtain ⟨h1, h2⟩ := h
  simp only at h1 h2
  rcases h1 with h1 | h1 | h1 <;> subst h1
  · obtain ⟨t, ht⟩ := Option.ne_none_iff_exists.mp (h2.mp rfl)
    subst ht
    simp [writeState, parse_save_charging]
  · have : stt = none := by
      by_contra hne
      exact absurd (h2.mpr hne) (by simp)
    subst this
    simp [writeState, parse_save_idle]
  · have : stt = none := by
      by_contra hne
      exact absurd (h2.mpr hne) (by simp)
    subst this
    simp [writeState, parse_save_disconnected]

/-- Witness for the amended C5: a charging record whose stored power already
has two decimals round-trips exactly. -/
theorem wallbox_c5_roundtrip_amended_witness :
    parseContent (writeState ⟨"charging", some 100, 1/4, 7, true, false⟩) =
      ⟨"charging", some 100, 1/4, 7, true, false⟩ := by
  rw [wallbox_c5_roundtrip_amended ⟨"charging", some 100, 1/4, 7, true, false⟩
    ⟨Or.inl rfl, by simp⟩]
  rw [if_neg (by decide : ¬("charging" : String) = "disconnected")]
  norm_num [round2]

/-- Claim C3 (counterexample): at a normal charging stop with baseline
(`stored_power`) 0 and current reading 500 Wh, the emitted session summary
carries 0 Wh, not `max(500 - 0, 0) = 500`: the `or`-chain on line 391
replaces a zero baseline by the current reading itself. -/
theorem wallbox_c3_zero_baseline_cex :
    notifyEvents (cycleCore ⟨"charging", some 100, 0, 300, true, false⟩
        (some (1/2)) (some 500) 200) =
      [Event.chargingStopped, Event.sessionSummary 0 500 100] ∧
    (0 : ℚ) ≠ max ((500 : ℚ) - 0) 0 := by
  constructor
  · norm_num [cycleCore, energyWithFallback_eq, sendEnergySummary, notifyEvents,
      pySessionEnergy, pyOrF, restFlow, reconnectActs, newStateOf, refreshActs,
      startActs, rateActs, stopActs]
    simp
  · norm_num

/-- Claim C3 as amended: every session summary a cycle emits carries
`max(current - b, 0)` where `b` is the stored baseline if it is nonzero,
else the current reading itself if that is nonzero, else 0 (so a zero
baseline yields 0, not the full counter value); the result is never
negative for any pair. -/
theorem wallbox_c3_session_energy_amended :
    (∀ (sd : StateRec) (rate tot : Option ℚ) (now e t el : ℚ),
      Action.notify (Event.sessionSummary e t el) ∈ cycleCore sd rate tot now →
      e = pySessionEnergy sd.stored_power t ∧ 0 ≤ e) ∧
    (∀ b c : ℚ, 0 ≤ pySessionEnergy b c) := by
  have hnn : ∀ b c : ℚ, 0 ≤ pySessionEnergy b c := fun b c => le_max_right _ _
  refine ⟨?_, hnn⟩
  intro sd rate tot now e t el h
  simp only [cycleCore, energyWithFallback_eq, sendEnergySummary, restFlow,
    reconnectActs, newStateOf, refreshActs, startActs, rateActs, stopActs] at h
  repeat' split at h
  all_goals simp_all

/-- Witness for the amended C3: a stop cycle with baseline 2 Wh and current
reading 500 Wh emits a 498 Wh session summary, which is non-negative. -/
theorem wallbox_c3_session_energy_amended_witness :
    (498 : ℚ) = pySessionEnergy 2 500 ∧ (0 : ℚ) ≤ 498 :=
  wallbox_c3_session_energy_amended.1
    ⟨"charging", some 100, 2, 300, true, false⟩ (some (1/2)) (some 500) 200
    498 500 100 (by
      norm_num [cycleCore, energyWithFallback_eq, sendEnergySummary,
        pySessionEnergy, pyOrF, restFlow, reconnectActs, newStateOf,
        refreshActs, startActs, rateActs, stopActs]
      simp)

/-- Claim C6 (counterexample): a reconnection cycle dispatches the
ConnectedEvent notification as its very first action, before any state
write — the state reflecting the transition is not yet persisted when the
notification is attempted. -/
theorem wallbox_c6_notify_before_save_cex :
    (cycleCore ⟨"disconnected", none, 0, 0, false, false⟩
        (some 0) (some 500) 100).head? =
      some (Action.notify Event.cableConnected) ∧
    (cycleCore ⟨"disconnected", none, 0, 0, false, false⟩
        (some 0) (some 500) 100).countP isSaveAct = 2 := by
  decide

lemma any_save_append_single_save (l : List Action) (c : FileContent) :
    (l ++ [Action.save c]).any isSaveAct = true := by
  simp [isSaveAct, List.any_append]

lemma dropThroughFirst_append_silent (p : Action → Bool) (pre t : List Action)
    (h : pre.any p = false) :
    dropThroughFirst p (pre ++ t) = dropThroughFirst p t := by
  induction pre with
  | nil => rfl
  | cons a l ih =>
    simp only [List.any_cons, Bool.or_eq_false_iff] at h
    simp [dropThroughFirst, h.1, ih h.2]

/-- Order property of a trace: if it contains a transition notification,
some state write follows the first one. -/
def NotifyThenSave (t : List Action) : Prop :=
  t.any isEventNotify = true → (dropThroughFirst isEventNotify t).any isSaveAct = true

lemma nts_no_notify (t : List Action) (h : t.any isEventNotify = false) :
    NotifyThenSave t := by
  intro hc
  rw [h] at hc
  cases hc

lemma nts_cons_notify (e : Event) (t : List Action)
    (he : isEventNotify (Action.notify e) = true)
    (h : t.any isSaveAct = true) : NotifyThenSave (Action.notify e :: t) := by
  intro _
  simpa [dropThroughFirst, he] using h

lemma nts_prepend_silent (pre t : List Action)
    (hpre : pre.any isEventNotify = false)
    (h : NotifyThenSave t) : NotifyThenSave (pre ++ t) := by
  intro hc
  rw [List.any_append, hpre, Bool.false_or] at hc
  rw [dropThroughFirst_append_silent _ _ _ hpre]
  exact h hc

lemma restFlow_notify_then_save (sd : StateRec) (rate tot : Option ℚ) (now : ℚ) :
    NotifyThenSave (restFlow sd rate tot now) := by
  unfold restFlow
  by_cases hrec : sd.state = "disconnected" ∧ tot ≠ none
  · simp only [reconnectActs]
    rw [if_pos hrec]
    simp only [List.cons_append, List.nil_append]
    exact nts_cons_notify _ _ (by simp [isEventNotify]) (by simp [isSaveAct])
  · simp only [reconnectActs]
    rw [if_neg hrec]
    rw [List.nil_append]
    apply nts_prepend_silent
    · cases tot <;> simp [refreshActs, isEventNotify]
    · split
      · cases tot <;>
          exact nts_cons_notify _ _ (by simp [isEventNotify]) (by simp [isSaveAct])
      · split
        · cases rate with
          | none => exact nts_no_notify _ (by simp [isEventNotify])
          | some p =>
            by_cases hr : 0 < p ∧ ¬ sd.notified = true
            · simp only [rateActs]
              rw [if_pos hr]
              simp only [List.cons_append, List.nil_append]
              exact nts_cons_notify _ _ (by simp [isEventNotify])
                (by simp [isSaveAct])
            · simp only [rateActs]
              rw [if_neg hr]
              rw [List.nil_append]
              unfold stopActs
              split
              · simp only [List.cons_append, List.nil_append]
                exact nts_cons_notify _ _ (by simp [isEventNotify])
                  (by simp [isSaveAct])
              · exact nts_no_notify _ (by simp)
        · exact nts_no_notify _ (by simp)

lemma cycleCore_notify_then_save (sd : StateRec) (rate tot : Option ℚ) (now : ℚ) :
    NotifyThenSave (cycleCore sd rate tot now) := by
  simp only [cycleCore, energyWithFallback_eq]
  split
  · split
    · exact nts_no_notify _ (by simp [isEventNotify])
    · exact nts_cons_notify _ _ (by simp [isEventNotify])
        (any_save_append_single_save _ _)
  · split
    · split
      · exact nts_no_notify _ (by simp [isEventNotify])
      · exact nts_cons_notify _ _ (by simp [isEventNotify])
          (any_save_append_single_save _ _)
    · exact restFlow_notify_then_save sd rate tot now

/-- Claim C6 as amended: the ordering is the reverse of the claimed one — in
every cycle that dispatches at least one transition-event notification, a
state write occurs after the first such notification (each transition's
write follows its notification dispatch; state durability does depend on
dispatch not raising). -/
theorem wallbox_c6_order_amended (file : Option FileContent)
    (rate tot : Option ℚ) (now : ℚ)
    (h : (mainCycle file rate tot now).any isEventNotify = true) :
    (dropThroughFirst isEventNotify (mainCycle file rate tot now)).any
      isSaveAct = true := by
  cases file with
  | none => simp [mainCycle, get_last_state, isEventNotify] at h
  | some c =>
    simp only [mainCycle, get_last_state] at h ⊢
    exact cycleCore_notify_then_save (parseContent c) rate tot now h

lemma lastSaveContent_cons_notify (e : Event) (l : List Action) :
    lastSaveContent (Action.notify e :: l) = lastSaveContent l := rfl

lemma lastSaveContent_snoc_save (l : List Action) (c : FileContent) :
    lastSaveContent (l ++ [Action.save c]) = some c := by
  simp [lastSaveContent, List.foldl_append]

lemma newStateOf_cases (rate : Option ℚ) :
    newStateOf rate = "idle" ∨ newStateOf rate = "charging" := by
  cases rate with
  | none => exact Or.inl rfl
  | some r =>
    simp only [newStateOf]
    split
    · exact Or.inl rfl
    · exact Or.inr rfl

/-- First detection of an absent energy reading while Idle: one state write
setting the debounce flag, nothing else. -/
lemma step_idle_first (stt : Option ℚ) (sp ts : ℚ) (ntf : Bool)
    (rate1 : Option ℚ) (now1 : ℚ) :
    stepRec ⟨"idle", stt, sp, ts, ntf, false⟩ ⟨rate1, none, now1⟩ =
      (⟨"idle", none, round2 sp, ts, ntf, true⟩,
       [Action.save (save_last_state "idle" sp ts ntf none true)]) := by
  simp [stepRec, cycleCore, energyWithFallback_eq, lastSaveContent,
    parse_save_idle]

/-- First detection of an absent energy reading while Charging: one state
write setting the debounce flag, nothing else. -/
lemma step_charging_first (stt : Option ℚ) (sp ts : ℚ) (ntf : Bool)
    (rate1 : Option ℚ) (now1 : ℚ) :
    stepRec ⟨"charging", stt, sp, ts, ntf, false⟩ ⟨rate1, none, now1⟩ =
      (⟨"charging", some (stt.getD 0), round2 sp, ts, ntf, true⟩,
       [Action.save (save_last_state "charging" sp ts ntf stt true)]) := by
  simp [stepRec, cycleCore, energyWithFallback_eq, lastSaveContent,
    parse_save_charging]

/-- Confirmed disconnection while Idle: the final write is the disconnected
record. -/
lemma step_idle_confirm (stt : Option ℚ) (sp ts : ℚ) (ntf : Bool)
    (rate : Option ℚ) (now : ℚ) :
    (stepRec ⟨"idle", stt, sp, ts, ntf, true⟩ ⟨rate, none, now⟩).1 =
      ⟨"disconnected", none, 0, ts, false, false⟩ := by
  simp [stepRec, cycleCore, energyWithFallback_eq, lastSaveContent_cons_notify,
    lastSaveContent_snoc_save, parse_save_disconnected]

/-- Confirmed interruption while Charging: the final write is the
disconnected record. -/
lemma step_charging_confirm (stt : Option ℚ) (sp ts : ℚ) (ntf : Bool)
    (rate : Option ℚ) (now : ℚ) :
    (stepRec ⟨"charging", stt, sp, ts, ntf, true⟩ ⟨rate, none, now⟩).1 =
      ⟨"disconnected", none, 0, ts, false, false⟩ := by
  simp [stepRec, cycleCore, energyWithFallback_eq, lastSaveContent_cons_notify,
    lastSaveContent_snoc_save, parse_save_disconnected]

/-- A cycle from Idle with the energy reading present ends in the newly
classified phase and emits no disconnect/interruption notification. -/
lemma step_idle_energy (stt : Option ℚ) (sp ts : ℚ) (ntf rep : Bool)
    (rate : Option ℚ) (e now : ℚ) :
    (stepRec ⟨"idle", stt, sp, ts, ntf, rep⟩ ⟨rate, some e, now⟩).1.state =
      newStateOf rate ∧
    (stepRec ⟨"idle", stt, sp, ts, ntf, rep⟩ ⟨rate, some e, now⟩).2.countP
      isDiscNotify = 0 := by
  by_cases hc : newStateOf rate = "charging"
  · simp [stepRec, cycleCore, energyWithFallback_eq, restFlow, reconnectActs,
      refreshActs, startActs, rateActs, stopActs, hc, lastSaveContent,
      lastSaveContent_snoc_save, parse_save_charging, isDiscNotify]
  · have hi : newStateOf rate = "idle" := (newStateOf_cases rate).resolve_right hc
    simp [stepRec, cycleCore, energyWithFallback_eq, restFlow, reconnectActs,
      refreshActs, startActs, rateActs, stopActs, hc, hi, lastSaveContent,
      parse_save_idle, isDiscNotify]

/-- A cycle from Charging with the energy reading present and power at least
the 1.0 kW threshold stays in Charging and emits no disconnect/interruption
notification. -/
lemma step_charging_energy (stt : Option ℚ) (sp ts : ℚ) (ntf rep : Bool)
    (p e now : ℚ) (hp : 1 ≤ p) :
    (stepRec ⟨"charging", stt, sp, ts, ntf, rep⟩ ⟨some p, some e, now⟩).1.state =
      "charging" ∧
    (stepRec ⟨"charging", stt, sp, ts, ntf, rep⟩ ⟨some p, some e, now⟩).2.countP
      isDiscNotify = 0 := by
  have hp0 : ¬ p = 0 := by intro h; rw [h] at hp; norm_num at hp
  have hp1 : ¬ p < 1 := not_lt.mpr hp
  by_cases hr : 0 < p ∧ ntf = false
  · simp [stepRec, cycleCore, energyWithFallback_eq, restFlow, reconnectActs,
      refreshActs, newStateOf, startActs, rateActs, stopActs, hp0, hp1, hr,
      lastSaveContent, parse_save_charging, isDiscNotify]
  · simp [stepRec, cycleCore, energyWithFallback_eq, restFlow, reconnectActs,
      refreshActs, newStateOf, startActs, rateActs, stopActs, hp0, hp1, hr,
      lastSaveContent, parse_save_charging, isDiscNotify]

/-- Claim C4: from any Idle or Charging state with the debounce flag clear,
one absent-energy sample followed by a normal sample (power at least the
charging threshold when previously Charging) never reaches Disconnected and
emits no disconnect/interruption notification, while two consecutive
absent-energy samples do end in Disconnected. -/
theorem wallbox_c4_debounce (r : StateRec) (rate1 rate2 rate2b : Option ℚ)
    (p e2 now1 now2 now2b : ℚ)
    (hs : r.state = "idle" ∨ r.state = "charging")
    (hrc : r.repeat_check = false)
    (hp : r.state = "charging" → rate2 = some p ∧ 1 ≤ p) :
    (((stepRec r ⟨rate1, none, now1⟩).2 ++
       (stepRec (stepRec r ⟨rate1, none, now1⟩).1 ⟨rate2, some e2, now2⟩).2).countP
         isDiscNotify = 0 ∧
     (stepRec r ⟨rate1, none, now1⟩).1.state ≠ "disconnected" ∧
     (stepRec (stepRec r ⟨rate1, none, now1⟩).1
        ⟨rate2, some e2, now2⟩).1.state ≠ "disconnected") ∧
    (stepRec (stepRec r ⟨rate1, none, now1⟩).1
       ⟨rate2b, none, now2b⟩).1.state = "disconnected" := by
  obtain ⟨st, stt, sp, ts, ntf, rep⟩ := r
  simp only at hs hrc hp
  subst hrc
  rcases hs with hs | hs <;> subst hs
  · rw [step_idle_first]
    refine ⟨⟨?_, ?_, ?_⟩, ?_⟩
    · rw [List.countP_append]
      have h2 := step_idle_energy none (round2 sp) ts ntf true rate2 e2 now2
      rw [h2.2]
      simp [isDiscNotify]
    · simp
    · have h2 := step_idle_energy none (round2 sp) ts ntf true rate2 e2 now2
      rw [h2.1]
      rcases newStateOf_cases rate2 with h | h <;> rw [h] <;> simp
    · rw [step_idle_confirm]
  · obtain ⟨hr2, hp1⟩ := hp rfl
    subst hr2
    rw [step_charging_first]
    refine ⟨⟨?_, ?_, ?_⟩, ?_⟩
    · rw [List.countP_append]
      have h2 := step_charging_energy (some (stt.getD 0)) (round2 sp) ts ntf
        true p e2 now2 hp1
      rw [h2.2]
      simp [isDiscNotify]
    · simp
    · have h2 := step_charging_energy (some (stt.getD 0)) (round2 sp) ts ntf
        true p e2 now2 hp1
      rw [h2.1]
      simp
    · rw [step_charging_confirm]

/-- Witness for C4 from a concrete Idle state: the debounced glitch is
absorbed, two consecutive absences disconnect. -/
theorem wallbox_c4_debounce_witness :
    (((stepRec ⟨"idle", none, 2, 400, false, false⟩ ⟨some 0, none, 1⟩).2 ++
       (stepRec (stepRec ⟨"idle", none, 2, 400, false, false⟩ ⟨some 0, none, 1⟩).1
          ⟨some 2, some 450, 2⟩).2).countP isDiscNotify = 0 ∧
     (stepRec ⟨"idle", none, 2, 400, false, false⟩ ⟨some 0, none, 1⟩).1.state
       ≠ "disconnected" ∧
     (stepRec (stepRec ⟨"idle", none, 2, 400, false, false⟩ ⟨some 0, none, 1⟩).1
        ⟨some 2, some 450, 2⟩).1.state ≠ "disconnected") ∧
    (stepRec (stepRec ⟨"idle", none, 2, 400, false, false⟩ ⟨some 0, none, 1⟩).1
       ⟨some 0, none, 2⟩).1.state = "disconnected" :=
  wallbox_c4_debounce ⟨"idle", none, 2, 400, false, false⟩ (some 0) (some 2)
    (some 0) 2 450 1 2 2 (Or.inl rfl) rfl (fun h => absurd h (by decide))

/-- How many RateEvents may still fire before the session ends: 1 while a
Charging session has not announced its rate, else 0. -/
def rateBudget (r : StateRec) : ℕ :=
  if r.state = "charging" ∧ r.notified = false then 1 else 0

lemma rateBudget_le_one (r : StateRec) : rateBudget r ≤ 1 := by
  unfold rateBudget
  split <;> omega

/-- One cycle that emits no StartedEvent spends rate notifications against
the budget: the emitted RateEvents plus the remaining budget never exceed
the budget the cycle began with. -/
lemma step_rate_budget (r : StateRec) (s : Sample)
    (h : countStarted (stepRec r s).2 = 0) :
    countRate (stepRec r s).2 + rateBudget (stepRec r s).1 ≤ rateBudget r := by
  obtain ⟨st, stt, sp, ts, ntf, rep⟩ := r
  obtain ⟨rate, tot, now⟩ := s
  by_cases hch : st = "charging"
  · subst hch
    by_cases hb1 : tot = none ∨ rate = some 0
    · cases rep
      · simp [stepRec, cycleCore, energyWithFallback_eq, hb1, countRate,
          countStarted, rateBudget, lastSaveContent, parse_save_charging,
          isRateNotify]
      · simp [stepRec, cycleCore, energyWithFallback_eq, hb1, countRate,
          countStarted, rateBudget, lastSaveContent_cons_notify,
          lastSaveContent_snoc_save, parse_save_disconnected, isRateNotify,
          sendEnergySummary, List.countP_append, List.countP_cons]
        split <;> simp [isRateNotify]
    · push_neg at hb1
      obtain ⟨t, htot⟩ := Option.ne_none_iff_exists.mp hb1.1
      rw [← htot] at hb1 ⊢
      cases rate with
      | none =>
        simp [stepRec, cycleCore, energyWithFallback_eq, restFlow,
          reconnectActs, newStateOf, refreshActs, startActs, rateActs,
          stopActs, countRate, countStarted, rateBudget, lastSaveContent,
          parse_save_idle, isRateNotify]
      | some p =>
        have hp0 : ¬ (some p = some 0) := hb1.2
        have hp0q : ¬ p = 0 := by intro hh; exact hp0 (by rw [hh])
        by_cases hlt : p < 1
        · by_cases hra : 0 < p ∧ ntf = false
          · rcases stt with _ | sv
            · simp [stepRec, cycleCore, energyWithFallback_eq, restFlow,
              reconnectActs, newStateOf, refreshActs, startActs, rateActs,
              stopActs, countRate, countStarted, rateBudget,
              lastSaveContent, lastSaveContent_snoc_save, parse_save_idle,
              parse_save_charging, isRateNotify, hp0q, hlt, hra,
              List.countP_append, List.countP_cons]
            · by_cases hs : sv = 0
              · simp [stepRec, cycleCore, energyWithFallback_eq, restFlow,
              reconnectActs, newStateOf, refreshActs, startActs, rateActs,
              stopActs, countRate, countStarted, rateBudget,
              lastSaveContent, lastSaveContent_snoc_save, parse_save_idle,
              parse_save_charging, isRateNotify, hp0q, hlt, hra,
              List.countP_append, List.countP_cons, hs]
              · simp [stepRec, cycleCore, energyWithFallback_eq, restFlow,
              reconnectActs, newStateOf, refreshActs, startActs, rateActs,
              stopActs, countRate, countStarted, rateBudget,
              lastSaveContent, lastSaveContent_snoc_save, parse_save_idle,
              parse_save_charging, isRateNotify, hp0q, hlt, hra,
              List.countP_append, List.countP_cons, hs]
          · rcases stt with _ | sv
            · simp [stepRec, cycleCore, energyWithFallback_eq, restFlow,
              reconnectActs, newStateOf, refreshActs, startActs, rateActs,
              stopActs, countRate, countStarted, rateBudget,
              lastSaveContent, lastSaveContent_snoc_save, parse_save_idle,
              parse_save_charging, isRateNotify, hp0q, hlt, hra,
              List.countP_append, List.countP_cons]
            · by_cases hs : sv = 0
              · simp [stepRec, cycleCore, energyWithFallback_eq, restFlow,
              reconnectActs, newStateOf, refreshActs, startActs, rateActs,
              stopActs, countRate, countStarted, rateBudget,
              lastSaveContent, lastSaveContent_snoc_save, parse_save_idle,
              parse_save_charging, isRateNotify, hp0q, hlt, hra,
              List.countP_append, List.countP_cons, hs]
              · simp [stepRec, cycleCore, energyWithFallback_eq, restFlow,
              reconnectActs, newStateOf, refreshActs, startActs, rateActs,
              stopActs, countRate, countStarted, rateBudget,
              lastSaveContent, lastSaveContent_snoc_save, parse_save_idle,
              parse_save_charging, isRateNotify, hp0q, hlt, hra,
              List.countP_append, List.countP_cons, hs]
        · by_cases hra : 0 < p ∧ ntf = false
          · simp [stepRec, cycleCore, energyWithFallback_eq, restFlow,
              reconnectActs, newStateOf, refreshActs, startActs, rateActs,
              stopActs, countRate, countStarted, rateBudget,
              lastSaveContent, lastSaveContent_snoc_save, parse_save_idle,
              parse_save_charging, isRateNotify, hp0q, hlt, hra,
              List.countP_append, List.countP_cons]
          · simp [stepRec, cycleCore, energyWithFallback_eq, restFlow,
              reconnectActs, newStateOf, refreshActs, startActs, rateActs,
              stopActs, countRate, countStarted, rateBudget,
              lastSaveContent, lastSaveContent_snoc_save, parse_save_idle,
              parse_save_charging, isRateNotify, hp0q, hlt, hra,
              List.countP_append, List.countP_cons]
  · by_cases hid : st = "idle"
    · subst hid
      by_cases htot : tot = none
      · cases rep
        · simp [stepRec, cycleCore, energyWithFallback_eq, htot, countRate,
            countStarted, rateBudget, lastSaveContent, parse_save_idle,
            isRateNotify]
        · simp [stepRec, cycleCore, energyWithFallback_eq, htot, countRate,
            countStarted, rateBudget, lastSaveContent_cons_notify,
            lastSaveContent_snoc_save, parse_save_disconnected, isRateNotify,
            sendEnergySummary, List.countP_append, List.countP_cons]
          intro a _ ha
          rcases ha with ha | ha <;> subst ha <;> rfl
      · obtain ⟨t, htot2⟩ := Option.ne_none_iff_exists.mp htot
        rw [← htot2] at h ⊢
        by_cases hns : newStateOf rate = "charging"
        · exfalso
          rw [stepRec] at h
          simp [cycleCore, energyWithFallback_eq, restFlow, reconnectActs,
            refreshActs, startActs, rateActs, stopActs, hns, countStarted,
            isStartNotify, List.countP_append, List.countP_cons] at h
        · have hni : newStateOf rate = "idle" :=
            (newStateOf_cases rate).resolve_right hns
          simp [stepRec, cycleCore, energyWithFallback_eq, restFlow,
            reconnectActs, refreshActs, startActs, rateActs, stopActs, hns,
            hni, countRate, countStarted, rateBudget, lastSaveContent,
            parse_save_idle, isRateNotify]
    · by_cases hns : newStateOf rate = "charging"
      · exfalso
        rw [stepRec] at h
        simp [cycleCore, energyWithFallback_eq, restFlow, reconnectActs,
          refreshActs, startActs, rateActs, stopActs, hns, hch, hid,
          countStarted, isStartNotify, List.countP_append,
          List.countP_cons] at h
        rcases tot with _ | t <;> simp_all [isStartNotify]
      · have hni : newStateOf rate = "idle" :=
          (newStateOf_cases rate).resolve_right hns
        cases tot with
        | none =>
          simp [stepRec, cycleCore, energyWithFallback_eq, restFlow,
            reconnectActs, refreshActs, startActs, rateActs, stopActs, hns,
            hni, hch, hid, countRate, countStarted, rateBudget,
            lastSaveContent, isRateNotify]
        | some t =>
          by_cases hdis : st = "disconnected"
          · subst hdis
            simp [stepRec, cycleCore, energyWithFallback_eq, restFlow,
              reconnectActs, refreshActs, startActs, rateActs, stopActs, hns,
              hni, hch, hid, countRate, countStarted, rateBudget,
              lastSaveContent, lastSaveContent_cons_notify, parse_save_idle,
              isRateNotify, List.countP_append, List.countP_cons]
          · simp [stepRec, cycleCore, energyWithFallback_eq, restFlow,
              reconnectActs, refreshActs, startActs, rateActs, stopActs, hns,
              hni, hch, hid, hdis, countRate, countStarted, rateBudget,
              lastSaveContent, parse_save_idle, isRateNotify]

lemma reconnectActs_no_rate (sd : StateRec) (tot : Option ℚ) :
    (reconnectActs sd tot).countP isRateNotify = 0 := by
  unfold reconnectActs
  split <;> rfl

lemma reconnectActs_no_started (sd : StateRec) (tot : Option ℚ) :
    (reconnectActs sd tot).countP isStartNotify = 0 := by
  unfold reconnectActs
  split <;> rfl

lemma refreshActs_no_rate (sd : StateRec) (ns : String) (tot : Option ℚ) :
    (refreshActs sd ns tot).countP isRateNotify = 0 := by
  cases tot <;> rfl

lemma refreshActs_no_started (sd : StateRec) (ns : String) (tot : Option ℚ) :
    (refreshActs sd ns tot).countP isStartNotify = 0 := by
  cases tot <;> rfl

lemma startActs_no_rate (sd : StateRec) (tot : Option ℚ) (now : ℚ) :
    (startActs sd tot now).countP isRateNotify = 0 := by
  cases tot <;> rfl

lemma rateActs_no_started (sd : StateRec) (p : ℚ) :
    (rateActs sd p).countP isStartNotify = 0 := by
  unfold rateActs
  split <;> rfl

lemma stopActs_no_started (sd : StateRec) (ns : String) (tot : Option ℚ) (now : ℚ) :
    (stopActs sd ns tot now).countP isStartNotify = 0 := by
  unfold stopActs
  repeat' split
  all_goals rfl

lemma sendEnergySummary_no_rate (ts : ℚ) :
    (sendEnergySummary ts).countP isRateNotify = 0 := by
  unfold sendEnergySummary
  split <;> rfl

lemma sendEnergySummary_no_started (ts : ℚ) :
    (sendEnergySummary ts).countP isStartNotify = 0 := by
  unfold sendEnergySummary
  split <;> rfl

/-- A cycle from a Charging state never emits a StartedEvent: the start
branch requires `last_state != "charging"`. -/
lemma step_no_started_of_charging (stt : Option ℚ) (sp ts : ℚ) (ntf rep : Bool)
    (rate tot : Option ℚ) (now : ℚ) :
    countStarted (stepRec ⟨"charging", stt, sp, ts, ntf, rep⟩ ⟨rate, tot, now⟩).2
      = 0 := by
  by_cases hb1 : tot = none ∨ rate = some 0
  · cases rep <;>
      simp [stepRec, cycleCore, energyWithFallback_eq, hb1, countStarted,
        sendEnergySummary_no_started, List.countP_append, List.countP_cons,
        isStartNotify]
  · push_neg at hb1
    cases rate with
    | none =>
      simp [stepRec, cycleCore, energyWithFallback_eq, hb1.1, restFlow,
        countStarted, reconnectActs_no_started, refreshActs_no_started,
        List.countP_append, List.countP_cons, isStartNotify]
    | some p =>
      have hp0q : ¬ p = 0 := by
        intro hh
        exact hb1.2 (by rw [hh])
      simp [stepRec, cycleCore, energyWithFallback_eq, hb1.1, hp0q, restFlow,
        countStarted, reconnectActs_no_started, refreshActs_no_started,
        rateActs_no_started, stopActs_no_started, List.countP_append,
        List.countP_cons, isStartNotify]

/-- A cycle from a non-Charging state never emits a RateEvent: the rate
branch requires `last_state == "charging"`. -/
lemma step_no_rate_of_not_charging (r : StateRec) (s : Sample)
    (h : ¬ r.state = "charging") :
    countRate (stepRec r s).2 = 0 := by
  obtain ⟨st, stt, sp, ts, ntf, rep⟩ := r
  obtain ⟨rate, tot, now⟩ := s
  simp only at h
  by_cases hb2 : tot = none ∧ st = "idle"
  · cases rep <;>
      simp [stepRec, cycleCore, energyWithFallback_eq, h, hb2, countRate,
        sendEnergySummary_no_rate, List.countP_append, List.countP_cons,
        isRateNotify]
  · by_cases hns : newStateOf rate = "charging"
    · simp [stepRec, cycleCore, energyWithFallback_eq, h, hb2, hns, restFlow,
        countRate, reconnectActs_no_rate, refreshActs_no_rate,
        startActs_no_rate, List.countP_append, List.countP_cons, isRateNotify]
    · simp [stepRec, cycleCore, energyWithFallback_eq, h, hb2, hns, restFlow,
        countRate, reconnectActs_no_rate, refreshActs_no_rate,
        List.countP_append, List.countP_cons, isRateNotify]
lemma countStarted_append (l1 l2 : List Action) :
    countStarted (l1 ++ l2) = countStarted l1 + countStarted l2 := by
  unfold countStarted
  exact List.countP_append _ _ _

lemma countRate_append (l1 l2 : List Action) :
    countRate (l1 ++ l2) = countRate l1 + countRate l2 := by
  unfold countRate
  exact List.countP_append _ _ _

/-- Over any run without a StartedEvent, the RateEvents stay within the
initial budget. -/
lemma run_rate_budget (L : List Sample) (r : StateRec)
    (h : countStarted (runRec r L) = 0) :
    countRate (runRec r L) ≤ rateBudget r := by
  induction L generalizing r with
  | nil => simp [runRec, countRate]
  | cons s L ih =>
    rw [runRec] at h ⊢
    rw [countStarted_append] at h
    rw [countRate_append]
    have h1 : countStarted (stepRec r s).2 = 0 := by omega
    have h2 : countStarted (runRec (stepRec r s).1 L) = 0 := by omega
    have hb := step_rate_budget r s h1
    have hr := ih (stepRec r s).1 h2
    omega

/-- A cycle that emits a StartedEvent emits no RateEvent: the rate branch
requires `last_state == "charging"` while the start branch requires the
opposite. -/
lemma step_started_no_rate (r : StateRec) (s : Sample)
    (h : 1 ≤ countStarted (stepRec r s).2) :
    countRate (stepRec r s).2 = 0 := by
  by_cases hch : r.state = "charging"
  · exfalso
    obtain ⟨st, stt, sp, ts, ntf, rep⟩ := r
    obtain ⟨rate, tot, now⟩ := s
    simp only at hch
    subst hch
    rw [step_no_started_of_charging] at h
    omega
  · exact step_no_rate_of_not_charging r s hch

/-- Claim C8: at most one RateEvent per continuous Charging session.  Any
run of cycles that emits no StartedEvent (in particular the remainder of a
session after its start) emits at most one RateEvent, and the cycle that
emits the StartedEvent itself emits none. -/
theorem wallbox_c8_rate_once :
    (∀ (r : StateRec) (L : List Sample),
      countStarted (runRec r L) = 0 → countRate (runRec r L) ≤ 1) ∧
    (∀ (r : StateRec) (s : Sample),
      1 ≤ countStarted (stepRec r s).2 → countRate (stepRec r s).2 = 0) := by
  constructor
  · intro r L h
    exact le_trans (run_rate_budget L r h) (rateBudget_le_one r)
  · intro r s h
    exact step_started_no_rate r s h

/-- Witness for C8: a two-cycle charging run with no start emits exactly one
RateEvent; a start cycle from idle emits none. -/
theorem wallbox_c8_rate_once_witness :
    countRate (runRec ⟨"charging", some 10, 100, 400, false, false⟩
      [⟨some 2, some 100, 50⟩, ⟨some 2, some 150, 60⟩]) ≤ 1 ∧
    countRate (stepRec ⟨"idle", none, 0, 0, false, false⟩
      ⟨some 2, some 100, 50⟩).2 = 0 :=
  ⟨wallbox_c8_rate_once.1 ⟨"charging", some 10, 100, 400, false, false⟩
      [⟨some 2, some 100, 50⟩, ⟨some 2, some 150, 60⟩] (by decide),
   wallbox_c8_rate_once.2 ⟨"idle", none, 0, 0, false, false⟩
      ⟨some 2, some 100, 50⟩ (by decide)⟩

/-- Witness for the amended C6 on a concrete reconnection cycle. -/
theorem wallbox_c6_order_amended_witness :
    (dropThroughFirst isEventNotify
      (mainCycle (some ("disconnected", [Tok.floatLit 0, Tok.intLit 0, Tok.intLit 0]))
        (some 0) (some 500) 100)).any isSaveAct = true :=
  wallbox_c6_order_amended
    (some ("disconnected", [Tok.floatLit 0, Tok.intLit 0, Tok.intLit 0]))
    (some 0) (some 500) 100 (by decide)

end Wallbox
